import Mathlib

/-
Verification of the demo-error-lint repository (src/main.go).

The program is a linear Go demonstration driver: a handful of error-producing
helpers plus a main function running eight numbered demos of error-handling
patterns. We embed the Go error values as an inductive type, the standard
library queries (==, errors.Is, errors.As) as functions over it, and the
program functions as Lean functions, then state and settle the claimed
properties.
-/

namespace DemoErrorLint

/--
Model of a Go error value as used by this program.

- `sentinel id msg` models a package-level sentinel created by `errors.New`
  (or an exported stdlib sentinel such as `io.EOF` or `sql.ErrNoRows`).
  Each distinct creation site gets a distinct `id`, so structural equality
  on sentinels coincides with Go pointer identity.
- `notFound item` models `&NotFoundError{Item: item}` (main.go:13-19).
- `wrapf msg causes` models the error returned by `fmt.Errorf` with one or
  more `%w` verbs: the fully rendered message plus the ordered list of wrapped
  causes exposed by `Unwrap`.
- `pathError op path msg` models the `*fs.PathError` returned by a failing
  `os.Open`.
-/
inductive GoError where
  | sentinel (id : Nat) (msg : String)
  | notFound (item : String)
  | wrapf (msg : String) (causes : List GoError)
  | pathError (op : String) (path : String) (msg : String)
deriving Repr

mutual

/-- Go interface equality (==) between two non-nil error values: same dynamic
type and equal value. Sentinels compare by creation site, wrap errors and
structured errors by contents (the program never compares two separately
constructed wraps, so contents equality is faithful where this is used). -/
def beqErr : GoError → GoError → Bool
  | .sentinel i m, .sentinel j n => i == j && m == n
  | .notFound a, .notFound b => a == b
  | .wrapf m cs, .wrapf n ds => m == n && beqErrList cs ds
  | .pathError o p m, .pathError q r n => o == q && p == r && m == n
  | _, _ => false

/-- Pointwise `beqErr` on cause lists. -/
def beqErrList : List GoError → List GoError → Bool
  | [], [] => true
  | c :: cs, d :: ds => beqErr c d && beqErrList cs ds
  | _, _ => false

end

/-- Go == lifted to possibly-nil errors (`Option GoError`, `none` = nil). -/
def beqOpt : Option GoError → Option GoError → Bool
  | none, none => true
  | some a, some b => beqErr a b
  | _, _ => false

/-- Rendering an error to text, i.e. the `Error()` method. A `wrapf` error
stores its message already rendered (as `fmt.Errorf` does at construction
time); `notFound` renders as in main.go:17-19; `pathError` renders as the
standard library does ("op path: msg"). -/
def errMsg : GoError → String
  | .sentinel _ m => m
  | .notFound item => item ++ " not found"
  | .wrapf m _ => m
  | .pathError op path m => op ++ " " ++ path ++ ": " ++ m

mutual

/-- Model of `errors.Is err target` for the error types of this program:
true if `err` == `target`, or `err` is a wrap error one of whose causes
transitively satisfies the query. Causes are visited depth-first in list
order, as the standard library does for a multi-cause `Unwrap() []error`. -/
def errorsIs : GoError → GoError → Bool
  | .wrapf m causes, target =>
      beqErr (.wrapf m causes) target || errorsIsList causes target
  | e, target => beqErr e target

/-- Left-to-right search of a cause list for `errors.Is`. -/
def errorsIsList : List GoError → GoError → Bool
  | [], _ => false
  | c :: rest, target => errorsIs c target || errorsIsList rest target

end

/-- Model of `errors.Is` when the first argument is a possibly-nil error;
`errors.Is(nil, target)` is false for the non-nil targets used here. -/
def optErrorsIs : Option GoError → GoError → Bool
  | none, _ => false
  | some e, t => errorsIs e t

mutual

/-- Model of `errors.As(err, &target)` for `target : *NotFoundError`:
walk the chain depth-first and return the payload `Item` of the first
`*NotFoundError` found, if any. -/
def errorsAsNotFound : GoError → Option String
  | .notFound item => some item
  | .wrapf _ causes => errorsAsNotFoundList causes
  | _ => none

/-- Left-to-right search of a cause list for `errors.As`. -/
def errorsAsNotFoundList : List GoError → Option String
  | [] => none
  | c :: rest =>
      match errorsAsNotFound c with
      | some s => some s
      | none => errorsAsNotFoundList rest

end

mutual

/-- The sequence of error values visited by the standard traversal (the
order in which `errors.Is` / `errors.As` inspect the chain): the error
itself first, then its causes depth-first in list order. -/
def errChain : GoError → List GoError
  | .wrapf m causes => .wrapf m causes :: errChainList causes
  | e => [e]

/-- Depth-first flattening of a cause list for `errChain`. -/
def errChainList : List GoError → List GoError
  | [] => []
  | c :: rest => errChain c ++ errChainList rest

end

/-- The sentinel `ErrInvalidInput = errors.New("invalid input")` (main.go:23). -/
def ErrInvalidInput : GoError := .sentinel 0 "invalid input"

/-- The sentinel `ErrTimeout = errors.New("operation timed out")` (main.go:24). -/
def ErrTimeout : GoError := .sentinel 1 "operation timed out"

/-- The stdlib sentinel `io.EOF`. -/
def ioEOF : GoError := .sentinel 2 "EOF"

/-- The stdlib sentinel `sql.ErrNoRows`. -/
def sqlErrNoRows : GoError := .sentinel 3 "sql: no rows in result set"

/-- Model of `fmt.Errorf(pre ++ "%w", cause)`: renders the cause into the
message and keeps it as the single wrapped cause. -/
def errorfW (pre : String) (cause : GoError) : GoError :=
  .wrapf (pre ++ errMsg cause) [cause]

/-- Model of `fmt.Errorf(pre ++ "%w" ++ mid ++ "%w", c1, c2)`: renders both
causes into the message and keeps both, in argument order, as wrapped causes. -/
def errorfW2 (pre : String) (c1 : GoError) (mid : String) (c2 : GoError) : GoError :=
  .wrapf (pre ++ errMsg c1 ++ mid ++ errMsg c2) [c1, c2]

/-- `fetchData` (main.go:28-30): unconditionally returns `ErrInvalidInput`. -/
def fetchData : Option GoError := some ErrInvalidInput

/-- `processData` (main.go:33-40): calls `fetchData`; on failure wraps the
error with `fmt.Errorf("failed to process data: %w", err)`. -/
def processData : Option GoError :=
  match fetchData with
  | some err => some (errorfW "failed to process data: " err)
  | none => none

/-- `findItem` (main.go:43-45): unconditionally returns `&NotFoundError{Item: item}`. -/
def findItem (item : String) : GoError := .notFound item

/-- `readFullBuffer` (main.go:48-56), abstracted over the outcome
`(n, err)` of the single `r.Read(buf)` call: if `err == io.EOF` (identity
comparison) it returns `(n, nil)`, otherwise it returns `(n, err)` unchanged. -/
def readFullBuffer (readResult : Nat × Option GoError) : Nat × Option GoError :=
  let n := readResult.1
  let err := readResult.2
  if beqOpt err (some ioEOF) then (n, none) else (n, err)

/-- `openDbErr` (main.go:146-148): unconditionally returns `sql.ErrNoRows`. -/
def openDbErr : Option GoError := some sqlErrNoRows

/-- The outcome of running `customOperation`: either a normal return carrying
its error result, or a runtime panic (nil pointer dereference). -/
inductive OpResult where
  | ok : Option GoError → OpResult
  | panicked : OpResult
deriving Repr

/-- Model of `strings.Contains s sub`: `sub` occurs as a substring of `s`. -/
def stringContains (s sub : String) : Bool := decide (sub.data <:+: s.data)

/-- The filesystem-determined outcomes that `customOperation` observes:
the error result of `os.Open("nonexistent.txt")` and, if that open
succeeded, the error result of the single `file.Read(data)` call. -/
structure FS where
  openErr : Option GoError
  readErr : Option GoError

/-- `customOperation` (main.go:150-171). On open failure: returns the error
wrapped as "could not open file: %w". On open success it reads once; a read
error other than `io.EOF` is returned wrapped as "could not read file: %w";
otherwise control falls through to `strings.Contains(err.Error(), "permission
denied")` — which dereferences `err` without a nil guard, so a nil read
error (successful read, no end-of-stream) panics. -/
def customOperation (fs : FS) : OpResult :=
  match fs.openErr with
  | some e => .ok (some (errorfW "could not open file: " e))
  | none =>
    match fs.readErr with
    | some e =>
        if beqErr e ioEOF then
          if stringContains (errMsg e) "permission denied" then
            .ok (some (errorfW "permission issue: " e))
          else
            .ok none
        else
          .ok (some (errorfW "could not read file: " e))
    | none => .panicked

/-- Demo 1 (main.go:59-70): direct == comparison of `fetchData`'s result
against `ErrInvalidInput`, then the `errors.Is` form; one printed line per
check that succeeds. -/
def demo1 : List String :=
  let err := fetchData
  (if beqOpt err (some ErrInvalidInput) then ["Invalid input detected"] else []) ++
  (if optErrorsIs err ErrInvalidInput then ["Invalid input detected (correctly checked)"] else [])

/-- Demo 2 (main.go:72-85): type assertion of `findItem "document"`'s result
to `*NotFoundError`, then the `errors.As` form. -/
def demo2 : List String :=
  let err := findItem "document"
  (match err with
   | .notFound item => ["Not found error: " ++ item]
   | _ => []) ++
  (match errorsAsNotFound err with
   | some item => ["Not found error (correctly checked): " ++ item]
   | none => [])

/-- Demo 3 (main.go:87-98): switch on the error value returned by
`processData`, with cases `ErrInvalidInput`, `ErrTimeout` and a default. -/
def demo3 : List String :=
  let err := processData
  if beqOpt err (some ErrInvalidInput) then ["Invalid input"]
  else if beqOpt err (some ErrTimeout) then ["Timeout"]
  else ["Unknown error"]

/-- Demo 4 (main.go:100-107): type switch on the same error value, with a
`*NotFoundError` case and a default. -/
def demo4 : List String :=
  match processData with
  | some (.notFound item) => ["Not found: " ++ item]
  | _ => ["Other error type"]

/-- The local `inputErr = errors.New("input validation failed")` (main.go:110). -/
def inputErr : GoError := .sentinel 4 "input validation failed"

/-- The local `wrappedErr = fmt.Errorf("operation failed: %w", inputErr)`
(main.go:113). The inline comment announces a non-wrapping `%v` at this
site, but the code uses `%w`. -/
def wrappedErr : GoError := errorfW "operation failed: " inputErr

/-- The local `properlyWrappedErr = fmt.Errorf("operation failed: %w", inputErr)`
(main.go:117). -/
def properlyWrappedErr : GoError := errorfW "operation failed: " inputErr

/-- Demo 5 (main.go:109-118): prints both constructed errors. -/
def demo5 : List String := [errMsg wrappedErr, errMsg properlyWrappedErr]

/-- The local `err1 = errors.New("first error")` (main.go:121). -/
def err1 : GoError := .sentinel 5 "first error"

/-- The local `err2 = errors.New("second error")` (main.go:122). -/
def err2 : GoError := .sentinel 6 "second error"

/-- The local `combinedErr = fmt.Errorf("multiple errors: %w and %w", err1, err2)`
(main.go:125). -/
def combinedErr : GoError := errorfW2 "multiple errors: " err1 " and " err2

/-- Demo 6 (main.go:120-126): prints the two-cause wrapped error. -/
def demo6 : List String := [errMsg combinedErr]

/-- Demo 7 (main.go:128-133): identity comparison of `openDbErr()` against
`sql.ErrNoRows`. -/
def demo7 : List String :=
  if beqOpt openDbErr (some sqlErrNoRows) then ["No rows found"] else []

/-- Process exit: normal termination (status 0) or a runtime panic
(nonzero status). -/
inductive ExitStatus where
  | normal
  | panicked
deriving DecidableEq, Repr

/-- The full run of `main` (main.go:58-144) over a filesystem state `fs`:
the printed lines, each tagged with the number of the demo that printed it,
plus the exit status. Demo 8 (main.go:135-138) prints one line when
`customOperation` returns a non-nil error, nothing when it returns nil,
and aborts the program if it panics. -/
def mainRun (fs : FS) : List (Nat × String) × ExitStatus :=
  let pre :=
    demo1.map (fun s => (1, s)) ++ demo2.map (fun s => (2, s)) ++
    demo3.map (fun s => (3, s)) ++ demo4.map (fun s => (4, s)) ++
    demo5.map (fun s => (5, s)) ++ demo6.map (fun s => (6, s)) ++
    demo7.map (fun s => (7, s))
  match customOperation fs with
  | .ok (some e) => (pre ++ [(8, "Custom operation failed: " ++ errMsg e)], .normal)
  | .ok none => (pre, .normal)
  | .panicked => (pre, .panicked)

/-- The `*fs.PathError` produced by `os.Open("nonexistent.txt")` when the
file does not exist. -/
def enoentErr : GoError := .pathError "open" "nonexistent.txt" "no such file or directory"

/-- The filesystem state the program is specified against: the fixed path
"nonexistent.txt" does not exist, so the open fails with `enoentErr`. -/
def fsNoFile : FS := ⟨some enoentErr, none⟩

/-- Collapse adjacent duplicates in a list of demo numbers, leaving the
sequence of distinct demos in the order their output appeared. -/
def collapseAdj : List Nat → List Nat
  | [] => []
  | [a] => [a]
  | a :: b :: rest =>
      if a = b then collapseAdj (b :: rest) else a :: collapseAdj (b :: rest)

/-- An alternative filesystem state in which the fixed path is also missing
but the (unreachable) read outcome differs; used to exhibit two distinct
executions with identical output. -/
def fsNoFileAlt : FS := ⟨some enoentErr, some ioEOF⟩

/-- C1: every error produced by `fetchData` satisfies the `errors.Is` query
against `ErrInvalidInput`, both when the sentinel is returned directly and
when it is wrapped with a formatted message by `processData`. -/
theorem c1_sentinel_is_query_direct_and_wrapped :
    optErrorsIs fetchData ErrInvalidInput = true ∧
    optErrorsIs processData ErrInvalidInput = true :=
  ⟨rfl, rfl⟩

/-- C2 counterexample evidence: in Demo 5 the code builds both `wrappedErr`
(main.go:113) and `properlyWrappedErr` (main.go:117) with the
traversal-preserving `%w` directive, despite the inline comment announcing a
non-preserving `%v` for the first. Hence the cause `inputErr` is recoverable
by traversal from BOTH errors, the two errors are identical, and the
asymmetry claimed for Demo 5 does not exist in the code. -/
theorem c2_demo5_both_wraps_preserve_cause :
    errorsIs wrappedErr inputErr = true ∧
    errorsIs properlyWrappedErr inputErr = true ∧
    wrappedErr = properlyWrappedErr :=
  ⟨rfl, rfl, rfl⟩

/-- C3: in Demo 3 the switch keyed on error-value identity, applied to the
wrapped error returned by `processData`, matches neither `ErrInvalidInput`
nor `ErrTimeout` and takes the default branch printing the unknown-error
line, even though the error transitively contains `ErrInvalidInput`. -/
theorem c3_demo3_switch_takes_default :
    beqOpt processData (some ErrInvalidInput) = false ∧
    beqOpt processData (some ErrTimeout) = false ∧
    demo3 = ["Unknown error"] ∧
    optErrorsIs processData ErrInvalidInput = true :=
  ⟨rfl, rfl, rfl, rfl⟩

/-- C4: the two-cause wrapped error of Demo 6 exposes both `err1` and `err2`
via traversal, and the traversal visits `err1` before `err2`. -/
theorem c4_demo6_two_cause_wrap_traversal :
    errorsIs combinedErr err1 = true ∧
    errorsIs combinedErr err2 = true ∧
    errChain combinedErr = [combinedErr, err1, err2] :=
  ⟨rfl, rfl, rfl⟩

/-- C5: for every string `x`, the error returned by `findItem x` is
recovered by the `errors.As` query against `*NotFoundError`, and the
recovered payload `Item` equals `x`. -/
theorem c5_findItem_shape_recovery (x : String) :
    errorsAsNotFound (findItem x) = some x :=
  rfl

/-- C6: `readFullBuffer` returns a nil error (with the count read) when
the underlying read reports `io.EOF`, and returns any other outcome, error
or nil, unchanged: no other failure is discarded. -/
theorem c6_readFullBuffer_eof_and_other (n : Nat) (e : GoError)
    (h : beqErr e ioEOF = false) :
    readFullBuffer (n, some ioEOF) = (n, none) ∧
    readFullBuffer (n, some e) = (n, some e) ∧
    readFullBuffer (n, none) = (n, none) := by
  refine ⟨rfl, ?_, rfl⟩
  simp [readFullBuffer, beqOpt, h]

/-- C6 witness: the theorem instantiated at count 7 and the non-EOF error
`ErrTimeout`. -/
theorem c6_readFullBuffer_eof_and_other_witness :
    beqErr ErrTimeout ioEOF = false ∧
    (readFullBuffer (7, some ioEOF) = (7, none) ∧
     readFullBuffer (7, some ErrTimeout) = (7, some ErrTimeout) ∧
     readFullBuffer (7, none) = (7, none)) :=
  ⟨rfl, c6_readFullBuffer_eof_and_other 7 ErrTimeout rfl⟩

/-- C7: `openDbErr`'s result compared by identity to `sql.ErrNoRows` is
equal, so Demo 7 takes its branch and prints the no-rows line. -/
theorem c7_no_rows_identity_comparison :
    beqOpt openDbErr (some sqlErrNoRows) = true ∧
    demo7 = ["No rows found"] :=
  ⟨rfl, rfl⟩

/-- C8: running the driver against the specified filesystem state (the fixed
path missing), the printed output covers the demonstrations 1 through 8,
each contributing at least one line, in exactly that order, and the program
terminates normally (exit status 0). -/
theorem c8_eight_demos_in_order_exit_zero :
    collapseAdj ((mainRun fsNoFile).1.map Prod.fst) = [1, 2, 3, 4, 5, 6, 7, 8] ∧
    (mainRun fsNoFile).2 = ExitStatus.normal :=
  ⟨rfl, rfl⟩

/-- C9: determinism of the driver. The only behavior not fixed by the
program text is the outcome `customOperation` observes from the filesystem;
whenever two executions observe the same failing open of the fixed path
(as they do when, per the spec, the path does not exist), they produce the
identical tagged output and exit status. -/
theorem c9_deterministic_given_failing_open (e : GoError) (fs1 fs2 : FS)
    (h1 : fs1.openErr = some e) (h2 : fs2.openErr = some e) :
    mainRun fs1 = mainRun fs2 := by
  unfold mainRun customOperation
  rw [h1, h2]

/-- C9 witness: two distinct filesystem states whose open of the fixed path
fails with the missing-file error yield identical runs. -/
theorem c9_deterministic_given_failing_open_witness :
    fsNoFile.openErr = some enoentErr ∧
    fsNoFileAlt.openErr = some enoentErr ∧
    mainRun fsNoFile = mainRun fsNoFileAlt :=
  ⟨rfl, rfl, c9_deterministic_given_failing_open enoentErr fsNoFile fsNoFileAlt rfl rfl⟩

/-- C10: when the open succeeds, `customOperation` panics (nil pointer
dereference at the unguarded `err.Error()` call, main.go:166) exactly when
the read error is nil; the substring check is reached and passed safely
when the read error is `io.EOF`. -/
theorem c10_nil_guard_crash_iff_nil_read_error :
    (∀ re : Option GoError,
        (customOperation ⟨none, re⟩ = OpResult.panicked ↔ re = none)) ∧
    customOperation ⟨none, some ioEOF⟩ = OpResult.ok none := by
  constructor
  · intro re
    cases re with
    | none => simp [customOperation]
    | some e =>
        simp only [customOperation]
        split <;> (try split) <;> simp
  · rfl

end DemoErrorLint
